import Mathlib

/-!
Verification development for the icann-rdap toolkit.

The definitions below are a shallow embedding of the lenient RDAP codec
(icann-rdap-common/src/response/lenient.rs), the contact model
(icann-rdap-common/src/contact/mod.rs) and the bootstrap redirect engine of
the server.  JSON values are modelled by an inductive type; serde_json
numbers are modelled by the three-variant representation used by serde_json
(unsigned 64-bit integer, negative 64-bit integer, floating point), with the
floating-point payload left abstract since no accessor of the embedded code
inspects it.
-/

namespace RdapSpec

/-- Model of a serde_json Number: an unsigned integer that fits in u64,
a negative integer that fits in i64, or a floating point value.  The float
payload is not carried because none of the embedded accessors read it. -/
inductive JNum where
  | posInt : Nat → JNum
  | negInt : Int → JNum
  | float : JNum
deriving DecidableEq

/-- Model of a JSON value, restricted to the shapes the lenient codec
can meet: booleans, strings, numbers and arrays. -/
inductive Json where
  | bool : Bool → Json
  | str : String → Json
  | num : JNum → Json
  | arr : List Json → Json

/-- True when the JSON value is an array. -/
def Json.isArr : Json → Bool
  | .arr _ => true
  | _ => false

/-- True when the JSON value is a boolean. -/
def Json.isBool : Json → Bool
  | .bool _ => true
  | _ => false

/-- VectorStringish from lenient.rs: a vector of strings plus the flag
recording that deserialization saw a bare string.  The flag carries the
serde skip attribute, so serialization sees only the vector. -/
structure VectorStringish where
  vec : List String
  is_string : Bool
deriving DecidableEq

/-- Helper of the VectorStringish visitor: deserialize a JSON array element
list as strings, failing on any non-string element. -/
def decodeStringList : List Json → Option (List String)
  | [] => some []
  | .str s :: rest => (decodeStringList rest).map (fun l => s :: l)
  | _ => none

/-- Deserialize for VectorStringish (VectorStringishVisitor): visit_str
yields a singleton with the is_string flag set; visit_seq yields the list
with the flag clear; any other JSON shape is an error. -/
def deserializeVectorStringish : Json → Option VectorStringish
  | .str s => some ⟨[s], true⟩
  | .arr js => (decodeStringList js).map (fun l => ⟨l, false⟩)
  | _ => none

/-- Serialize for VectorStringish: serde transparent over the vec field
(is_string is skipped), so the output is always a JSON array. -/
def serializeVectorStringish (v : VectorStringish) : Json :=
  .arr (v.vec.map Json.str)

/-- BoolishInner from lenient.rs: serde untagged union of a boolean and a
string. -/
inductive BoolishInner where
  | bool : Bool → BoolishInner
  | string : String → BoolishInner
deriving DecidableEq

/-- Boolish from lenient.rs: serde transparent over BoolishInner. -/
structure Boolish where
  inner : BoolishInner
deriving DecidableEq

/-- Deserialize for Boolish: the untagged inner accepts a JSON boolean or a
JSON string; everything else is an error. -/
def deserializeBoolish : Json → Option Boolish
  | .bool b => some ⟨.bool b⟩
  | .str s => some ⟨.string s⟩
  | _ => none

/-- Serialize for Boolish: serde transparent plus untagged emits the active
variant as is, a boolean for Bool and a string for String. -/
def serializeBoolish : Boolish → Json
  | ⟨.bool b⟩ => .bool b
  | ⟨.string s⟩ => .str s

/-- The set of characters removed by Rust str::trim, i.e. the Unicode
White_Space property. -/
def rustIsWhitespace (c : Char) : Bool :=
  ([0x9, 0xA, 0xB, 0xC, 0xD, 0x20, 0x85, 0xA0, 0x1680,
    0x2028, 0x2029, 0x202F, 0x205F, 0x3000].contains c.toNat)
    || (0x2000 ≤ c.toNat && c.toNat ≤ 0x200A)

/-- Rust str::trim: remove leading and trailing whitespace. -/
def rustTrim (s : String) : String :=
  ⟨((s.data.dropWhile rustIsWhitespace).reverse.dropWhile rustIsWhitespace).reverse⟩

/-- The ASCII fragment of Rust char-by-char to_lowercase.  Only ASCII
letters can lowercase to the ASCII letters of the compared literals, so the
non-ASCII mappings are modelled as the identity. -/
def asciiLower (c : Char) : Char :=
  if 'A' ≤ c && c ≤ 'Z' then Char.ofNat (c.toNat + 32) else c

/-- Rust str::to_lowercase, on the ASCII fragment. -/
def rustToLowercase (s : String) : String :=
  ⟨s.data.map asciiLower⟩

/-- Boolish::is_true: trim whitespace, lowercase, compare with the four
accepted spellings of true. -/
def Boolish.is_true (value : String) : Bool :=
  let s := rustToLowercase (rustTrim value)
  s == "true" || s == "t" || s == "yes" || s == "y"

/-- Boolish::into_bool. -/
def Boolish.into_bool (b : Boolish) : Bool :=
  match b.inner with
  | .bool value => value
  | .string value => Boolish.is_true value

/-- Boolish::is_string: true when deserialization was from a string. -/
def Boolish.is_string (b : Boolish) : Bool :=
  match b.inner with
  | .bool _ => false
  | .string _ => true

/-- NumberishInner from lenient.rs: serde untagged union of a serde_json
Number and a string. -/
inductive NumberishInner where
  | number : JNum → NumberishInner
  | string : String → NumberishInner
deriving DecidableEq

/-- Numberish from lenient.rs: serde transparent over NumberishInner.  The
phantom width parameter of the Rust type is dropped; the four width
accessors are modelled directly. -/
structure Numberish where
  inner : NumberishInner
deriving DecidableEq

/-- Deserialize for Numberish: the untagged inner accepts a JSON number or
a JSON string; everything else is an error. -/
def deserializeNumberish : Json → Option Numberish
  | .num n => some ⟨.number n⟩
  | .str s => some ⟨.string s⟩
  | _ => none

/-- Serialize for Numberish: serde transparent plus untagged emits the
active variant as is, a number for Number and a string for String. -/
def serializeNumberish : Numberish → Json
  | ⟨.number n⟩ => .num n
  | ⟨.string s⟩ => .str s

/-- True for an ASCII digit. -/
def isDigitChar (c : Char) : Bool :=
  '0' ≤ c && c ≤ '9'

/-- Numeric value of a list of ASCII digits, most significant first. -/
def natOfDigits (ds : List Char) : Nat :=
  ds.foldl (fun a c => a * 10 + (c.toNat - '0'.toNat)) 0

/-- JSON insignificant whitespace, skipped around a top-level value. -/
def isJsonWs (c : Char) : Bool :=
  c = ' ' || c = '\t' || c = '\n' || c = '\r'

/-- Integer part of a JSON number: a lone zero, or a nonzero digit followed
by digits.  Returns its value and the remaining input. -/
def parseIntPart : List Char → Option (Nat × List Char)
  | '0' :: rest => some (0, rest)
  | c :: rest =>
    if '1' ≤ c && c ≤ '9' then
      some (natOfDigits (c :: rest.takeWhile isDigitChar), rest.dropWhile isDigitChar)
    else none
  | [] => none

/-- Optional fraction part of a JSON number: a dot demands at least one
digit.  Returns whether a fraction was present. -/
def parseFracPart : List Char → Option (Bool × List Char)
  | '.' :: rest =>
    if (rest.takeWhile isDigitChar).isEmpty then none
    else some (true, rest.dropWhile isDigitChar)
  | cs => some (false, cs)

/-- Optional exponent part of a JSON number: e or E, an optional sign, and
at least one digit.  Returns whether an exponent was present. -/
def parseExpPart : List Char → Option (Bool × List Char)
  | c :: rest =>
    if c = 'e' || c = 'E' then
      let rest2 := match rest with
        | '+' :: r => r
        | '-' :: r => r
        | r => r
      if (rest2.takeWhile isDigitChar).isEmpty then none
      else some (true, rest2.dropWhile isDigitChar)
    else some (false, c :: rest)
  | [] => some (false, [])

/-- Parse a string as a complete JSON number (serde_json FromStr for
Number goes through the full deserializer, which skips surrounding JSON
whitespace and demands end of input).  Returns the sign, the value of the
integer part, and whether a fraction or exponent made it floating point. -/
def jsonNumParts (s : String) : Option (Bool × Nat × Bool) :=
  let cs := s.data.dropWhile isJsonWs
  let (neg, cs) := match cs with
    | '-' :: r => (true, r)
    | _ => (false, cs)
  match parseIntPart cs with
  | none => none
  | some (v, cs) =>
    match parseFracPart cs with
    | none => none
    | some (hasFrac, cs) =>
      match parseExpPart cs with
      | none => none
      | some (hasExp, cs) =>
        if (cs.dropWhile isJsonWs).isEmpty then some (neg, v, hasFrac || hasExp)
        else none

/-- Classification done by the serde_json number parser: floats stay
floats; a negative integer is materialized when it fits in i64 (negated
zero normalizes to the unsigned zero) and falls back to float otherwise; an
unsigned integer is materialized when it fits in u64 and falls back to
float otherwise. -/
def mkJNum : Bool → Nat → Bool → JNum
  | _, _, true => .float
  | true, v, false =>
    if v = 0 then .posInt 0
    else if v ≤ 2 ^ 63 then .negInt (-(v : Int))
    else .float
  | false, v, false => if v < 2 ^ 64 then .posInt v else .float

/-- serde_json Number::from_str. -/
def numberFromStr (s : String) : Option JNum :=
  (jsonNumParts s).map (fun p => mkJNum p.1 p.2.1 p.2.2)

/-- serde_json Number::as_u64: only the unsigned-integer variant yields a
value. -/
def JNum.as_u64 : JNum → Option Nat
  | .posInt n => some n
  | _ => none

/-- Numberish::as_u64. -/
def Numberish.as_u64 (x : Numberish) : Option Nat :=
  match x.inner with
  | .number n => n.as_u64
  | .string s => (numberFromStr s).bind JNum.as_u64

/-- Numberish::as_u32: as_u64 followed by try_into for u32. -/
def Numberish.as_u32 (x : Numberish) : Option Nat :=
  match x.inner with
  | .number n => n.as_u64.bind (fun v => if v < 2 ^ 32 then some v else none)
  | .string s =>
    ((numberFromStr s).bind JNum.as_u64).bind (fun v => if v < 2 ^ 32 then some v else none)

/-- Numberish::as_u16: as_u64 followed by try_into for u16. -/
def Numberish.as_u16 (x : Numberish) : Option Nat :=
  match x.inner with
  | .number n => n.as_u64.bind (fun v => if v < 2 ^ 16 then some v else none)
  | .string s =>
    ((numberFromStr s).bind JNum.as_u64).bind (fun v => if v < 2 ^ 16 then some v else none)

/-- Numberish::as_u8: as_u64 followed by try_into for u8. -/
def Numberish.as_u8 (x : Numberish) : Option Nat :=
  match x.inner with
  | .number n => n.as_u64.bind (fun v => if v < 2 ^ 8 then some v else none)
  | .string s =>
    ((numberFromStr s).bind JNum.as_u64).bind (fun v => if v < 2 ^ 8 then some v else none)

/-- Numberish::is_string: true when deserialization was from a string. -/
def Numberish.is_string (x : Numberish) : Bool :=
  match x.inner with
  | .number _ => false
  | .string _ => true

/-- The integer represented by a serde_json Number, when it is one. -/
def JNum.toIntOpt : JNum → Option Int
  | .posInt n => some n
  | .negInt i => some i
  | .float => none

/-- The integer a Numberish represents: for a number inner, its integral
value; for a string inner, the integral value of the parsed number. -/
def repInt (x : Numberish) : Option Int :=
  match x.inner with
  | .number n => n.toIntOpt
  | .string s => (numberFromStr s).bind JNum.toIntOpt

/-- Keep an optional integer when it is within the half-open range from
zero to the bound, as a natural number. -/
def fitNat (bound : Nat) : Option Int → Option Nat
  | none => none
  | some v => if 0 ≤ v ∧ v < (bound : Int) then some v.toNat else none

/-- Invariant of serde_json numbers: the unsigned variant fits in u64, the
negative variant is negative. -/
def JNum.wf : JNum → Prop
  | .posInt n => n < 2 ^ 64
  | .negInt i => i < 0
  | .float => True

/-- Well-formedness of a Numberish: a number inner is a well-formed
serde_json number. -/
def Numberish.wf (x : Numberish) : Prop :=
  match x.inner with
  | .number n => n.wf
  | .string _ => True

/-- Modelled from the spec: a storage entry is either a full record or a
stored redirect carrying a URL (the storage engine of icann-rdap-srv is not
among the provided sources; only its integration tests are). -/
inductive StoreEntry where
  | record : StoreEntry
  | redirect : String → StoreEntry
deriving DecidableEq

/-- Modelled from the spec: an HTTP answer of the server router, reduced to
the observations of the bootstrap tests: status code, Location header, and
the errorCode of an RFC 9083 error body. -/
structure HttpResponse where
  status : Nat
  location : Option String
  errorCode : Option Nat
deriving DecidableEq

/-- Split a character list on a separator character. -/
def splitOnChar (sep : Char) : List Char → List (List Char)
  | [] => [[]]
  | c :: rest =>
    let r := splitOnChar sep rest
    if c = sep then [] :: r
    else
      match r with
      | [] => [[c]]
      | l :: ls => (c :: l) :: ls

/-- Join DNS labels with dots. -/
def joinLabels : List (List Char) → List Char
  | [] => []
  | [l] => l
  | l :: ls => l ++ '.' :: joinLabels ls

/-- Modelled from the spec: the fall-through list for the domain and
nameserver bootstrap lookup.  For a.b.c.example the suffixes are
a.b.c.example, b.c.example, c.example, example, and the empty string, most
specific first. -/
def domainSuffixes (ldh : String) : List String :=
  let labels := splitOnChar '.' ldh.data
  ((List.range labels.length).map (fun i => ⟨joinLabels (labels.drop i)⟩)) ++ [""]

/-- Modelled from the spec: domain (and nameserver) bootstrap lookup in a
map keyed by the suffix string; the first suffix found wins. -/
def lookupDomain (store : List (String × StoreEntry)) (ldh : String) : Option StoreEntry :=
  (domainSuffixes ldh).findSome? (fun sfx => store.lookup sfx)

/-- Collapse runs of double slashes to a single slash. -/
def collapseSlashes : List Char → List Char
  | [] => []
  | [c] => [c]
  | c :: d :: rest =>
    if c = '/' && d = '/' then collapseSlashes (d :: rest)
    else c :: collapseSlashes (d :: rest)

/-- Split a URL after its authority: everything through the scheme
separator and authority on the left, the path and onwards on the right. -/
def splitSchemeAuthority : List Char → Option (List Char × List Char)
  | ':' :: '/' :: '/' :: rest =>
    some (':' :: '/' :: '/' :: rest.takeWhile (fun c => c ≠ '/'),
      rest.dropWhile (fun c => c ≠ '/'))
  | c :: rest => (splitSchemeAuthority rest).map (fun p => (c :: p.1, p.2))
  | [] => none

/-- Modelled from the spec: redirect Location construction.  The stored URL
is joined with the request path component by a slash, and double slashes
are collapsed within the path, never in the authority. -/
def joinUrl (u path : String) : String :=
  match splitSchemeAuthority u.data with
  | some (pre, rest) => ⟨pre ++ collapseSlashes (rest ++ '/' :: path.data)⟩
  | none => ⟨collapseSlashes (u.data ++ '/' :: path.data)⟩

/-- Modelled from the spec: the router mapping of a domain-table lookup to
an HTTP answer; pathSeg is the request path component, domain for domain
queries and nameserver for nameserver queries.  A found record answers 200,
a stored redirect answers 302 with the joined Location, a miss answers 404
with an error body whose errorCode is 404. -/
def handleDomainTable (store : List (String × StoreEntry)) (pathSeg ldh : String) :
    HttpResponse :=
  match lookupDomain store ldh with
  | some (.redirect u) => ⟨302, some (joinUrl u (pathSeg ++ "/" ++ ldh)), none⟩
  | some .record => ⟨200, none, none⟩
  | none => ⟨404, none, some 404⟩

/-- Modelled from the spec: the server answer to a domain query. -/
def handleDomainQuery (store : List (String × StoreEntry)) (ldh : String) : HttpResponse :=
  handleDomainTable store ("domain") ldh

/-- Modelled from the spec: the server answer to a nameserver query, which
walks the same domain-suffix table. -/
def handleNameserverQuery (store : List (String × StoreEntry)) (name : String) :
    HttpResponse :=
  handleDomainTable store ("nameserver") name

/-- The substring after the final dash of a handle, none when the handle
has no dash. -/
def afterLastDash (s : String) : Option String :=
  let parts := splitOnChar '-' s.data
  if parts.length ≤ 1 then none
  else parts.getLast?.map (fun l => ⟨l⟩)

/-- Modelled from the spec: entity bootstrap lookup.  The exact handle is
tested first; then the registry tag, the substring after the final dash, is
compared case-insensitively against the stored dash-prefixed tag keys.  A
tag-less handle falls back only to the exact index. -/
def lookupEntity (exact tagIdx : List (String × StoreEntry)) (handle : String) :
    Option StoreEntry :=
  match exact.lookup handle with
  | some e => some e
  | none =>
    match afterLastDash handle with
    | none => none
    | some tag =>
      (tagIdx.find? (fun p => rustToLowercase p.1 == "-" ++ rustToLowercase tag)).map
        (fun p => p.2)

/-- Modelled from the spec: the server answer to an entity query; the
redirect Location keeps the handle as sent. -/
def handleEntityQuery (exact tagIdx : List (String × StoreEntry)) (handle : String) :
    HttpResponse :=
  match lookupEntity exact tagIdx handle with
  | some (.redirect u) => ⟨302, some (joinUrl u (("entity/") ++ handle)), none⟩
  | some .record => ⟨200, none, none⟩
  | none => ⟨404, none, some 404⟩

/-- Modelled from the spec: an autnum table entry, an inclusive range of AS
numbers with its stored entry. -/
structure AutnumEntry where
  start_autnum : Nat
  end_autnum : Nat
  entry : StoreEntry
deriving DecidableEq

/-- Modelled from the spec: autnum bootstrap lookup returns the entry with
the smallest width range containing the number, ties broken by most recent
insertion (later list positions are more recent). -/
def lookupAutnum (store : List AutnumEntry) (n : Nat) : Option AutnumEntry :=
  store.foldl
    (fun best e =>
      if e.start_autnum ≤ n && n ≤ e.end_autnum then
        match best with
        | none => some e
        | some b =>
          if e.end_autnum - e.start_autnum ≤ b.end_autnum - b.start_autnum then some e
          else some b
      else best)
    none

/-- Strip a leading AS tag, case-insensitively, from an autnum query. -/
def stripAsTag (s : String) : String :=
  match s.data with
  | a :: b :: rest =>
    if (a = 'A' || a = 'a') && (b = 'S' || b = 's') then ⟨rest⟩ else s
  | _ => s

/-- Modelled from the spec: parse an autnum query of the shape AS<digits>
or <digits>, case-insensitively; the value must fit in u32. -/
def parseAutnum (s : String) : Option Nat :=
  let t := stripAsTag s
  if !t.data.isEmpty && t.data.all isDigitChar then
    let v := natOfDigits t.data
    if v < 2 ^ 32 then some v else none
  else none

/-- Modelled from the spec: the server answer to an autnum query.  The
redirect path carries the parsed number, not the AS-tagged query text. -/
def handleAutnumQuery (store : List AutnumEntry) (q : String) : HttpResponse :=
  match parseAutnum q with
  | none => ⟨400, none, none⟩
  | some n =>
    match lookupAutnum store n with
    | some ⟨_, _, .redirect u⟩ => ⟨302, some (joinUrl u (("autnum/") ++ Nat.repr n)), none⟩
    | some _ => ⟨200, none, none⟩
    | none => ⟨404, none, some 404⟩

lemma decodeStringList_map_str (l : List String) :
    decodeStringList (l.map Json.str) = some l := by
  induction l with
  | nil => rfl
  | cons s rest ih => simp [decodeStringList, ih]

/-- C1 fails as stated: the value decoded from the lenient JSON string yes
at a Boolish position re-encodes as that same string, the lenient form, and
not as the canonical JSON boolean. -/
theorem c1_counterexample :
    (deserializeBoolish (Json.str ("yes"))).map serializeBoolish = some (Json.str ("yes")) ∧
    ((deserializeBoolish (Json.str ("yes"))).map serializeBoolish).map Json.isBool
      = some false :=
  ⟨rfl, rfl⟩

/-- C1 (amended): re-encoding normalizes only VectorStringish to the
canonical array shape; a Boolish or Numberish decoded from any JSON input,
the lenient string form included, re-encodes exactly as its input. -/
theorem c1_reencoding_shapes :
    (∀ v : VectorStringish, (serializeVectorStringish v).isArr = true) ∧
    (∀ s : String, (deserializeVectorStringish (Json.str s)).map serializeVectorStringish
        = some (Json.arr [Json.str s])) ∧
    (∀ j b, deserializeBoolish j = some b → serializeBoolish b = j) ∧
    (∀ j n, deserializeNumberish j = some n → serializeNumberish n = j) := by
  refine ⟨fun v => rfl, fun s => rfl, ?_, ?_⟩
  · intro j b h
    cases j <;> simp [deserializeBoolish] at h <;> simp [← h, serializeBoolish]
  · intro j n h
    cases j <;> simp [deserializeNumberish] at h <;> simp [← h, serializeNumberish]

/-- Witness for the amended C1 at concrete inputs. -/
theorem c1_reencoding_shapes_witness :
    serializeBoolish ⟨.string ("yes")⟩ = Json.str ("yes") ∧
    serializeNumberish ⟨.string ("7")⟩ = Json.str ("7") :=
  ⟨c1_reencoding_shapes.2.2.1 (Json.str ("yes")) ⟨.string ("yes")⟩ rfl,
   c1_reencoding_shapes.2.2.2 (Json.str ("7")) ⟨.string ("7")⟩ rfl⟩

/-- C7: a Boolish decoded from a JSON string is true exactly when the
trimmed, lowercased string is one of the four accepted spellings, and its
provenance flag is set; a Boolish decoded from a JSON boolean keeps the
boolean and has a clear flag. -/
theorem c7_boolish_semantics :
    (∀ s : String,
      deserializeBoolish (Json.str s) = some ⟨.string s⟩ ∧
      Boolish.is_string ⟨.string s⟩ = true ∧
      (Boolish.into_bool ⟨.string s⟩ = true ↔
        rustToLowercase (rustTrim s) = "true" ∨ rustToLowercase (rustTrim s) = "t" ∨
        rustToLowercase (rustTrim s) = "yes" ∨ rustToLowercase (rustTrim s) = "y")) ∧
    (∀ b : Bool,
      deserializeBoolish (Json.bool b) = some ⟨.bool b⟩ ∧
      Boolish.is_string ⟨.bool b⟩ = false ∧ Boolish.into_bool ⟨.bool b⟩ = b) := by
  constructor
  · intro s
    refine ⟨rfl, rfl, ?_⟩
    simp [Boolish.into_bool, Boolish.is_true, Bool.or_eq_true, beq_iff_eq]
    tauto
  · intro b
    exact ⟨rfl, rfl, rfl⟩

/-- C8: a VectorStringish decoded from a single JSON string is the
one-element list with the provenance flag set; decoded from an array of
strings it is that list with the flag clear; re-encoding always emits an
array. -/
theorem c8_vectorstringish :
    (∀ s : String, deserializeVectorStringish (Json.str s) = some ⟨[s], true⟩) ∧
    (∀ l : List String,
      deserializeVectorStringish (Json.arr (l.map Json.str)) = some ⟨l, false⟩) ∧
    (∀ v : VectorStringish, (serializeVectorStringish v).isArr = true) := by
  refine ⟨fun s => rfl, fun l => ?_, fun v => rfl⟩
  simp [deserializeVectorStringish, decodeStringList_map_str]

/-- C2: with a domain redirect stored under key example pointing to
https://example.net/, a domain query for foo.example answers 302 with
Location exactly https://example.net/domain/foo.example. -/
theorem c2_domain_bootstrap_redirect :
    handleDomainQuery [(("example"), .redirect ("https://example.net/"))] ("foo.example")
      = ⟨302, some ("https://example.net/domain/foo.example"), none⟩ := by
  decide

/-- C3: a nameserver query walks the same domain-suffix table most specific
first, so with a redirect stored under example a query for ns.foo.example
answers 302 with Location https://example.net/nameserver/ns.foo.example;
the fall-through list of ns.foo.example is spelled out. -/
theorem c3_nameserver_suffix_fallthrough :
    handleNameserverQuery [(("example"), .redirect ("https://example.net/"))]
        ("ns.foo.example")
      = ⟨302, some ("https://example.net/nameserver/ns.foo.example"), none⟩ ∧
    domainSuffixes ("ns.foo.example")
      = [("ns.foo.example"), ("foo.example"), ("example"), ("")] := by
  decide

/-- C4: entity lookup matches the registry tag case-insensitively and keeps
the handle as sent in the Location; a tag matching no stored suffix answers
404. -/
theorem c4_entity_tag_case_insensitive :
    handleEntityQuery [] [(("-ARIN"), .redirect ("https://example.net/"))] ("foo-ARIN")
      = ⟨302, some ("https://example.net/entity/foo-ARIN"), none⟩ ∧
    handleEntityQuery [] [(("-ARIN"), .redirect ("https://example.net/"))] ("foo-arin")
      = ⟨302, some ("https://example.net/entity/foo-arin"), none⟩ ∧
    handleEntityQuery [] [(("-CLAUCA"), .redirect ("https://example.net/"))] ("foo-arin")
      = ⟨404, none, some 404⟩ := by
  decide

/-- C5: with the range 700 to 800 stored as a redirect, the query AS710
answers 302 with Location https://example.net/autnum/710, and the query
AS1000 answers 404. -/
theorem c5_autnum_range_redirect :
    handleAutnumQuery [⟨700, 800, .redirect ("https://example.net/")⟩] ("AS710")
      = ⟨302, some ("https://example.net/autnum/710"), none⟩ ∧
    handleAutnumQuery [⟨700, 800, .redirect ("https://example.net/")⟩] ("AS1000")
      = ⟨404, none, some 404⟩ := by
  decide

/-- C6: when no stored entry covers any suffix of the queried name, the
server answers 404 carrying an error body whose errorCode is 404. -/
theorem c6_no_covering_domain_404 :
    handleDomainQuery [(("no_example"), .redirect ("https://example.net"))] ("foo.example")
      = ⟨404, none, some 404⟩ := by
  decide

lemma mkJNum_wf (neg : Bool) (v : Nat) (f : Bool) : (mkJNum neg v f).wf := by
  cases f <;> cases neg <;> simp only [mkJNum] <;>
    first
      | trivial
      | (split_ifs <;> simp only [JNum.wf] <;> first | trivial | omega)

lemma numberFromStr_wf (s : String) (n : JNum) (h : numberFromStr s = some n) : n.wf := by
  unfold numberFromStr at h
  cases hp : jsonNumParts s with
  | none => rw [hp] at h; cases h
  | some p =>
    rw [hp] at h
    injection h with h
    rw [← h]
    exact mkJNum_wf p.1 p.2.1 p.2.2

lemma jnum_fit (bound : Nat) (n : JNum) (h : n.wf) :
    (n.as_u64.bind fun v => if v < bound then some v else none) = fitNat bound n.toIntOpt := by
  cases n with
  | posInt m =>
    simp only [JNum.as_u64, JNum.toIntOpt, fitNat, Option.bind]
    split_ifs <;> first | rfl | simp | (exfalso; omega)
  | negInt i =>
    simp only [JNum.wf] at h
    simp only [JNum.as_u64, JNum.toIntOpt, fitNat, Option.bind]
    split_ifs <;> first | rfl | (exfalso; omega)
  | float => rfl

lemma jnum_as_u64_fit (n : JNum) (h : n.wf) : n.as_u64 = fitNat (2 ^ 64) n.toIntOpt := by
  cases n with
  | posInt m =>
    simp only [JNum.wf] at h
    simp only [JNum.as_u64, JNum.toIntOpt, fitNat]
    split_ifs <;> first | simp | (exfalso; omega)
  | negInt i =>
    simp only [JNum.wf] at h
    simp only [JNum.as_u64, JNum.toIntOpt, fitNat]
    split_ifs <;> first | rfl | (exfalso; omega)
  | float => rfl

/-- C9: for a Numberish decoded from a JSON number or from a string, each
width accessor returns exactly the represented integer value when that
value is within the target width, and nothing when the value is out of
range, negative, non-integral or unparseable. -/
theorem c9_numberish_width_accessors (x : Numberish) (h : x.wf) :
    x.as_u64 = fitNat (2 ^ 64) (repInt x) ∧ x.as_u32 = fitNat (2 ^ 32) (repInt x) ∧
    x.as_u16 = fitNat (2 ^ 16) (repInt x) ∧ x.as_u8 = fitNat (2 ^ 8) (repInt x) := by
  obtain ⟨inner⟩ := x
  cases inner with
  | number n =>
    have hw : n.wf := h
    exact ⟨jnum_as_u64_fit n hw, jnum_fit _ n hw, jnum_fit _ n hw, jnum_fit _ n hw⟩
  | string s =>
    cases hp : numberFromStr s with
    | none =>
      simp [Numberish.as_u64, Numberish.as_u32, Numberish.as_u16, Numberish.as_u8,
        repInt, hp, fitNat]
    | some n =>
      have hw := numberFromStr_wf s n hp
      simp only [Numberish.as_u64, Numberish.as_u32, Numberish.as_u16, Numberish.as_u8,
        repInt, hp, Option.bind]
      exact ⟨jnum_as_u64_fit n hw, jnum_fit _ n hw, jnum_fit _ n hw, jnum_fit _ n hw⟩

/-- Witness for C9 at the concrete decimal-string 710. -/
theorem c9_numberish_width_accessors_witness :
    (Numberish.mk (.string ("710"))).wf ∧
    (Numberish.mk (.string ("710"))).as_u32
      = fitNat (2 ^ 32) (repInt (Numberish.mk (.string ("710")))) :=
  ⟨True.intro, (c9_numberish_width_accessors (Numberish.mk (.string ("710"))) True.intro).2.1⟩

/-- Modelled from the spec: the prelude helper to_opt_vec used by the
contact builders (the prelude module is not among the provided sources): an
empty input list is collapsed to none, a non-empty one is kept. -/
def to_opt_vec {α : Type} (vec : List α) : Option (List α) :=
  if vec.isEmpty then none else some vec

/-- Lang from contact/mod.rs. -/
structure Lang where
  preference : Option Nat
  tag : String
deriving DecidableEq

/-- NameParts from contact/mod.rs. -/
structure NameParts where
  prefixes : Option (List String)
  surnames : Option (List String)
  middle_names : Option (List String)
  given_names : Option (List String)
  suffixes : Option (List String)
deriving DecidableEq

/-- NameParts::new, the builder body. -/
def NameParts.new (prefixes surnames middle_names given_names suffixes : List String) :
    NameParts :=
  { prefixes := to_opt_vec prefixes
    surnames := to_opt_vec surnames
    middle_names := to_opt_vec middle_names
    given_names := to_opt_vec given_names
    suffixes := to_opt_vec suffixes }

/-- PostalAddress from contact/mod.rs. -/
structure PostalAddress where
  preference : Option Nat
  contexts : Option (List String)
  full_address : Option String
  street_parts : Option (List String)
  locality : Option String
  region_name : Option String
  region_code : Option String
  country_name : Option String
  country_code : Option String
  postal_code : Option String
deriving DecidableEq

/-- Email from contact/mod.rs. -/
structure Email where
  preference : Option Nat
  contexts : Option (List String)
  email : String
deriving DecidableEq

/-- Phone from contact/mod.rs. -/
structure Phone where
  preference : Option Nat
  contexts : Option (List String)
  phone : String
  features : Option (List String)
deriving DecidableEq

/-- Contact from contact/mod.rs. -/
structure Contact where
  langs : Option (List Lang)
  kind : Option String
  full_name : Option String
  name_parts : Option NameParts
  nick_names : Option (List String)
  titles : Option (List String)
  roles : Option (List String)
  organization_names : Option (List String)
  postal_addresses : Option (List PostalAddress)
  emails : Option (List Email)
  phones : Option (List Phone)
  contact_uris : Option (List String)
  urls : Option (List String)
deriving DecidableEq

/-- Contact::new, the builder body: list arguments are collapsed through
to_opt_vec, the optional scalars pass through. -/
def Contact.new (langs : List Lang) (kind full_name : Option String)
    (name_parts : Option NameParts) (nick_names titles roles organization_names : List String)
    (postal_addresses : List PostalAddress) (emails : List Email) (phones : List Phone)
    (contact_uris urls : List String) : Contact :=
  { langs := to_opt_vec langs
    kind := kind
    full_name := full_name
    name_parts := name_parts
    nick_names := to_opt_vec nick_names
    titles := to_opt_vec titles
    roles := to_opt_vec roles
    organization_names := to_opt_vec organization_names
    postal_addresses := to_opt_vec postal_addresses
    emails := to_opt_vec emails
    phones := to_opt_vec phones
    contact_uris := to_opt_vec contact_uris
    urls := to_opt_vec urls }

/-- Contact::is_non_empty: true when any field holds data. -/
def Contact.is_non_empty (c : Contact) : Bool :=
  c.langs.isSome || c.kind.isSome || c.full_name.isSome || c.name_parts.isSome
    || c.nick_names.isSome || c.titles.isSome || c.roles.isSome
    || c.organization_names.isSome || c.postal_addresses.isSome || c.emails.isSome
    || c.phones.isSome || c.contact_uris.isSome || c.urls.isSome

/-- True when an optional list is absent or non-empty; the invariant shape
some-of-empty is the only rejected value. -/
def optListNonEmpty {α : Type} : Option (List α) → Bool
  | none => true
  | some l => !l.isEmpty

/-- The invariant claimed for builders: every list-valued field is either
none or a non-empty vector. -/
def Contact.optListsOk (c : Contact) : Prop :=
  optListNonEmpty c.langs = true ∧ optListNonEmpty c.nick_names = true
    ∧ optListNonEmpty c.titles = true ∧ optListNonEmpty c.roles = true
    ∧ optListNonEmpty c.organization_names = true
    ∧ optListNonEmpty c.postal_addresses = true ∧ optListNonEmpty c.emails = true
    ∧ optListNonEmpty c.phones = true ∧ optListNonEmpty c.contact_uris = true
    ∧ optListNonEmpty c.urls = true

/-- The list-valued fields of NameParts are either none or non-empty. -/
def NameParts.optListsOk (np : NameParts) : Prop :=
  optListNonEmpty np.prefixes = true ∧ optListNonEmpty np.surnames = true
    ∧ optListNonEmpty np.middle_names = true ∧ optListNonEmpty np.given_names = true
    ∧ optListNonEmpty np.suffixes = true

/-- At least one field of the Contact is set. -/
def Contact.someFieldSet (c : Contact) : Bool :=
  c.langs.isSome || c.kind.isSome || c.full_name.isSome || c.name_parts.isSome
    || c.nick_names.isSome || c.titles.isSome || c.roles.isSome
    || c.organization_names.isSome || c.postal_addresses.isSome || c.emails.isSome
    || c.phones.isSome || c.contact_uris.isSome || c.urls.isSome

lemma to_opt_vec_ok {α : Type} (v : List α) : optListNonEmpty (to_opt_vec v) = true := by
  unfold to_opt_vec optListNonEmpty
  by_cases h : v.isEmpty <;> simp [h]

/-- C10: every Contact built by Contact::new keeps each list-valued field
none or non-empty (an empty input list collapses to none), likewise
NameParts::new, and is_non_empty is true exactly when at least one field is
set. -/
theorem c10_contact_builder_invariant :
    (∀ (langs : List Lang) (kind full_name : Option String)
       (name_parts : Option NameParts)
       (nick_names titles roles organization_names : List String)
       (postal_addresses : List PostalAddress) (emails : List Email)
       (phones : List Phone) (contact_uris urls : List String),
      (Contact.new langs kind full_name name_parts nick_names titles roles
          organization_names postal_addresses emails phones contact_uris urls).optListsOk
      ∧ (Contact.new langs kind full_name name_parts nick_names titles roles
          organization_names postal_addresses emails phones contact_uris
          urls).is_non_empty
        = (Contact.new langs kind full_name name_parts nick_names titles roles
          organization_names postal_addresses emails phones contact_uris
          urls).someFieldSet) ∧
    (∀ prefixes surnames middle_names given_names suffixes : List String,
      (NameParts.new prefixes surnames middle_names given_names suffixes).optListsOk) := by
  constructor
  · intro langs kind full_name name_parts nick_names titles roles organization_names
      postal_addresses emails phones contact_uris urls
    constructor
    · unfold Contact.optListsOk
      exact ⟨to_opt_vec_ok _, to_opt_vec_ok _, to_opt_vec_ok _, to_opt_vec_ok _,
        to_opt_vec_ok _, to_opt_vec_ok _, to_opt_vec_ok _, to_opt_vec_ok _,
        to_opt_vec_ok _, to_opt_vec_ok _⟩
    · rfl
  · intro prefixes surnames middle_names given_names suffixes
    unfold NameParts.optListsOk
    exact ⟨to_opt_vec_ok _, to_opt_vec_ok _, to_opt_vec_ok _, to_opt_vec_ok _,
      to_opt_vec_ok _⟩

end RdapSpec





